import Mathlib

/-!
Verification of the POI fetch pipeline of the qgis-thesis plugin
(`osm_poi_downloader/overpass_api.py`, class `OverpassAPI`).

The Python module is shallowly embedded:
* dicts with string keys become association lists with first-match lookup
  (`lookupTag`, `lookupCategory`), which matches Python dict semantics since a
  dict never holds a key twice;
* JSON values read by the parser become the structures `Element`, `Center`,
  `Response`; absent dict keys are `Option.none`; JSON numbers (coordinates)
  are modelled as `Rat`;
* the network is modelled by an environment `env` mapping the query string and
  the attempt index to the outcome of that HTTP attempt (`AttemptOutcome`);
* `query_overpass` / `query_overpass_batch` return the list of sleep durations
  performed (in seconds, in order), the number of HTTP attempts made, and
  either the parsed response, a raised error (`OverpassError`, one constructor
  per distinct `raise` site of the source), or — for the single-category
  path — Python's implicit `None` when the retry loop body never runs,
  modelled as `Except.ok none`.
-/

/-- Python `tags.get(key)` on a string-keyed dict, as first-match lookup in an
association list. -/
def lookupTag (tags : List (String × String)) (key : String) : Option String :=
  (tags.find? (fun p => p.1 = key)).map (fun p => p.2)

/-- The `RISK_ZONES` table of `OverpassAPI`, in source (insertion) order:
category name, tag key, tag value. -/
def RISK_ZONES : List (String × String × String) :=
  [ ("factory", "man_made", "works"),
    ("gas station", "amenity", "fuel"),
    ("power plant", "power", "plant"),
    ("power substation", "power", "substation"),
    ("railway station", "railway", "station"),
    ("railway halt", "railway", "halt"),
    ("waterworks", "man_made", "water_works"),
    ("wastewater plant", "man_made", "wastewater_plant"),
    ("industrial zone", "landuse", "industrial") ]

/-- The `VULNERABLE_POPULATIONS` table of `OverpassAPI`, in source order. -/
def VULNERABLE_POPULATIONS : List (String × String × String) :=
  [ ("school", "amenity", "school"),
    ("kindergarten", "amenity", "kindergarten"),
    ("hospital", "amenity", "hospital"),
    ("clinic", "amenity", "clinic"),
    ("nursing home", "amenity", "nursing_home"),
    ("social facility", "amenity", "social_facility"),
    ("childcare", "amenity", "childcare"),
    ("community centre", "amenity", "community_centre") ]

/-- `CATEGORY_MAPPING = {**RISK_ZONES, **VULNERABLE_POPULATIONS}`: the two key
sets are disjoint, so the dict merge is concatenation in insertion order. -/
def CATEGORY_MAPPING : List (String × String × String) :=
  RISK_ZONES ++ VULNERABLE_POPULATIONS

/-- Python `CATEGORY_MAPPING.get(k)`. -/
def lookupCategory (key : String) : Option (String × String) :=
  (CATEGORY_MAPPING.find? (fun e => e.1 = key)).map (fun e => e.2)

/-- Python `str.lower()`, character by character (the category names at stake
are ASCII, where this agrees with Python). -/
def pyLower (s : String) : String := ⟨s.data.map Char.toLower⟩

/-- The category resolution shared verbatim by `build_query` and
`build_batch_query`:
`CATEGORY_MAPPING.get(poi_type.lower(), ('amenity', poi_type.lower()))`. -/
def resolveTag (poi_type : String) : String × String :=
  (lookupCategory (pyLower poi_type)).getD ("amenity", pyLower poi_type)

/-- A bounding box as unpacked by the builders: the four coordinates
(south, west, north, east). Only their rendered text enters the query, so they
are carried as the strings Python interpolation would produce. -/
def BBox : Type := String × String × String × String

/-- The f-string template of `build_query`, for an already-resolved tag pair. -/
def singleQueryText (bbox : BBox) (tag_key tag_value : String) : String :=
  let (south, west, north, east) := bbox
  "\n        [out:json][timeout:25];\n        (\n        node[\"" ++ tag_key ++
    "\"=\"" ++ tag_value ++ "\"](" ++ south ++ "," ++ west ++ "," ++ north ++
    "," ++ east ++ ");\n        way[\"" ++ tag_key ++ "\"=\"" ++ tag_value ++
    "\"](" ++ south ++ "," ++ west ++ "," ++ north ++ "," ++ east ++
    ");\n        );\n        out center;\n        "

/-- `OverpassAPI.build_query`. -/
def build_query (bbox : BBox) (poi_type : String) : String :=
  singleQueryText bbox (resolveTag poi_type).1 (resolveTag poi_type).2

/-- The two lines `build_batch_query` appends for one resolved tag pair. -/
def batchPairLines (bbox : BBox) (tag_key tag_value : String) : List String :=
  let (south, west, north, east) := bbox
  [ "  node[\"" ++ tag_key ++ "\"=\"" ++ tag_value ++ "\"](" ++ south ++ "," ++
      west ++ "," ++ north ++ "," ++ east ++ ");",
    "  way[\"" ++ tag_key ++ "\"=\"" ++ tag_value ++ "\"](" ++ south ++ "," ++
      west ++ "," ++ north ++ "," ++ east ++ ");" ]

/-- The f-string template of `build_batch_query` around the joined lines. -/
def batchQueryText (lines : List String) : String :=
  "\n            [out:json][timeout:60];\n            (\n            " ++
    String.intercalate "\n" lines ++
    "\n            );\n            out center;\n            "

/-- `OverpassAPI.build_batch_query`: two lines per category, categories in list
order, joined with newlines. -/
def build_batch_query (bbox : BBox) (poi_types : List String) : String :=
  batchQueryText ((poi_types.map (fun t =>
    batchPairLines bbox (resolveTag t).1 (resolveTag t).2)).flatten)

/-- The `center` sub-object of a way element; both coordinates may be absent. -/
structure Center where
  latVal : Option Rat
  lonVal : Option Rat
  deriving DecidableEq, Repr

/-- One entry of the response's `elements` list, with exactly the keys the
parser reads; every key may be absent. -/
structure Element where
  kind : Option String
  latVal : Option Rat
  lonVal : Option Rat
  center : Option Center
  osmId : Option Int
  tags : Option (List (String × String))
  deriving DecidableEq, Repr

/-- The decoded JSON body handed to the parser: the top-level `elements` key
may be absent. -/
structure Response where
  elements : Option (List Element)
  deriving DecidableEq, Repr

/-- The normalized output record built by `parse_features`. -/
structure Feature where
  lat : Rat
  lon : Rat
  name : String
  type : String
  id : Int
  tags : List (String × String)
  deriving DecidableEq, Repr

/-- Python `x or y` for `x` an optional string and `y` a string: `None` and
the empty string are falsy. -/
def pyOr (x : Option String) (y : String) : String :=
  match x with
  | some s => if s = "" then y else s
  | none => y

/-- The tag-priority chain of `parse_features`:
`tags.get('amenity') or tags.get('shop') or ... or 'unknown'`. -/
def poiTypeOf (tags : List (String × String)) : String :=
  pyOr (lookupTag tags "amenity") (pyOr (lookupTag tags "shop")
    (pyOr (lookupTag tags "tourism") (pyOr (lookupTag tags "railway")
      (pyOr (lookupTag tags "man_made") (pyOr (lookupTag tags "power")
        (pyOr (lookupTag tags "landuse")
          (pyOr (lookupTag tags "healthcare") "unknown")))))))

/-- The coordinate selection of the parser loop: `node` elements use direct
`lat`/`lon`, `way` elements the `center` object (defaulting to an empty dict),
any other kind is skipped (`continue`), signalled here by `none`. -/
def elementCoords (element : Element) : Option (Option Rat × Option Rat) :=
  if element.kind = some "node" then
    some (element.latVal, element.lonVal)
  else if element.kind = some "way" then
    let c := element.center.getD ⟨none, none⟩
    some (c.latVal, c.lonVal)
  else
    none

/-- One iteration of the `parse_features` loop: `none` means `continue`
(element skipped), `some f` means `features.append(f)`. -/
def parseElement (element : Element) : Option Feature :=
  match elementCoords element with
  | none => none
  | some (latOpt, lonOpt) =>
    match latOpt, lonOpt with
    | some lat, some lon =>
      let tags := element.tags.getD []
      some { lat := lat
             lon := lon
             name := (lookupTag tags "name").getD "Unnamed"
             type := poiTypeOf tags
             id := element.osmId.getD 0
             tags := tags }
    | _, _ => none

/-- `OverpassAPI.parse_features`: no `elements` key yields `[]`; otherwise the
loop over elements with `continue` for skipped ones is `filterMap`. -/
def parse_features (api_response : Response) : List Feature :=
  match api_response.elements with
  | none => []
  | some es => es.filterMap parseElement

/-- The category re-matching loop of `parse_batch_features`: first entry of
`CATEGORY_MAPPING` (in insertion order) whose tag pair occurs in the tags. -/
def matchCategory (tags : List (String × String)) : Option String :=
  (CATEGORY_MAPPING.find? (fun e => lookupTag tags e.2.1 = some e.2.2)).map
    (fun e => e.1)

/-- `categorized.setdefault`-style insertion of the source:
`if category not in categorized: categorized[category] = []` then
`categorized[category].append(feature)`, on a dict kept as an insertion-ordered
association list. -/
def addToBucket (categorized : List (String × List Feature)) (category : String)
    (feature : Feature) : List (String × List Feature) :=
  match categorized with
  | [] => [(category, [feature])]
  | (k, fs) :: rest =>
    if k = category then (k, fs ++ [feature]) :: rest
    else (k, fs) :: addToBucket rest category feature

/-- One iteration of the categorization loop of `parse_batch_features`:
features whose tags match no category are dropped (`if category:` — every
category name in the table is a non-empty, hence truthy, string). -/
def batchStep (categorized : List (String × List Feature)) (feature : Feature) :
    List (String × List Feature) :=
  match matchCategory feature.tags with
  | some category => addToBucket categorized category feature
  | none => categorized

/-- `OverpassAPI.parse_batch_features`: parse flat, then categorize each
feature in order, starting from an empty dict. -/
def parse_batch_features (api_response : Response) : List (String × List Feature) :=
  (parse_features api_response).foldl batchStep []

/-- Reading one bucket of the categorized result (absent key reads as `[]`). -/
def lookupBucket : List (String × List Feature) → String → List Feature
  | [], _ => []
  | (k, fs) :: rest, category => if k = category then fs else lookupBucket rest category

/-- The outcome of one HTTP attempt (`requests.post` + `raise_for_status` +
`.json()`), as seen by the exception handlers of the source: a successful
decoded body, `requests.exceptions.Timeout`, `requests.exceptions.HTTPError`
carrying the response status, `requests.exceptions.ConnectionError`,
`json.JSONDecodeError`, or any other exception. -/
inductive AttemptOutcome where
  | success (data : Response)
  | timeoutFailure
  | httpFailure (status : Nat)
  | connectionFailure
  | invalidBody
  | otherFailure
  deriving DecidableEq, Repr

/-- The distinct `raise Exception(...)` sites of the fetch executor, one
constructor per message. -/
inductive OverpassError where
  /-- "Request timed out after multiple attempts. Try a smaller area." -/
  | timeoutExhausted
  /-- "Server timeout after multiple attempts. The area may be too large or
  the server is overloaded." -/
  | serverTimeoutExhausted
  /-- "Rate limited by API. Please wait a moment and try again." -/
  | rateLimited
  /-- "HTTP error from Overpass API: ..." (any status other than 504/429). -/
  | httpOther (status : Nat)
  /-- "Could not connect to Overpass API. Check your internet connection." -/
  | connectionUnavailable
  /-- "Invalid response from Overpass API." -/
  | malformedResponse
  /-- "Error querying Overpass API: ..." (catch-all `except Exception`). -/
  | genericQueryError
  /-- "Batch request timed out. Try selecting fewer categories or a smaller
  area." -/
  | batchTimeout
  /-- "Server timeout. Try selecting fewer categories or a smaller area."
  (batch path, status 504). -/
  | batchServerTimeout
  deriving DecidableEq, Repr

/-- What a fetch call did: the sleep durations performed in order (seconds),
the number of HTTP attempts issued, and the outcome — `Except.ok (some d)` for
`return data`, `Except.ok none` for Python's implicit `None` when the loop body
never runs, `Except.error e` for a raised exception. -/
def FetchResult : Type := List Nat × Nat × Except OverpassError (Option Response)

/-- The body of the `for attempt in range(retry_count)` loop of
`query_overpass`, one constructor call per iteration. `fuel` counts the
iterations the range still holds (initially `retry_count.toNat`), `attempt`
is the 0-based loop variable; the guards compare `attempt < retry_count - 1`
over the integers exactly as the source does. Exhausted fuel is the loop
falling through, which in Python returns `None`. -/
def queryGo (env : String → Nat → AttemptOutcome) (q : String)
    (retry_count : Int) : Nat → Nat → FetchResult
  | 0, _ => ([], 0, .ok none)
  | fuel + 1, attempt =>
    match env q attempt with
    | .success data => ([], 1, .ok (some data))
    | .timeoutFailure =>
      if (attempt : Int) < retry_count - 1 then
        let r := queryGo env q retry_count fuel (attempt + 1)
        ((attempt + 1) * 2 :: r.1, r.2.1 + 1, r.2.2)
      else ([], 1, .error .timeoutExhausted)
    | .httpFailure status =>
      if status = 504 then
        if (attempt : Int) < retry_count - 1 then
          let r := queryGo env q retry_count fuel (attempt + 1)
          ((attempt + 1) * 3 :: r.1, r.2.1 + 1, r.2.2)
        else ([], 1, .error .serverTimeoutExhausted)
      else if status = 429 then
        if (attempt : Int) < retry_count - 1 then
          let r := queryGo env q retry_count fuel (attempt + 1)
          ((attempt + 1) * 5 :: r.1, r.2.1 + 1, r.2.2)
        else ([], 1, .error .rateLimited)
      else ([], 1, .error (.httpOther status))
    | .connectionFailure => ([], 1, .error .connectionUnavailable)
    | .invalidBody => ([], 1, .error .malformedResponse)
    | .otherFailure => ([], 1, .error .genericQueryError)

/-- `OverpassAPI.query_overpass(bbox, poi_type, retry_count)`: build the query
once, then run the retry loop; `range(retry_count)` iterates
`retry_count.toNat` times. -/
def query_overpass (env : String → Nat → AttemptOutcome) (bbox : BBox)
    (poi_type : String) (retry_count : Int) : FetchResult :=
  queryGo env (build_query bbox poi_type) retry_count retry_count.toNat 0

/-- `OverpassAPI.query_overpass_batch(bbox, poi_types)`: one attempt, no loop,
no sleeps; each exception maps to its own raise site (status 504 gets the batch
server-timeout message, other HTTP statuses the generic HTTP-error one). -/
def query_overpass_batch (env : String → AttemptOutcome) (bbox : BBox)
    (poi_types : List String) : List Nat × Nat × Except OverpassError Response :=
  match env (build_batch_query bbox poi_types) with
  | .success data => ([], 1, .ok data)
  | .timeoutFailure => ([], 1, .error .batchTimeout)
  | .connectionFailure => ([], 1, .error .connectionUnavailable)
  | .httpFailure status =>
    if status = 504 then ([], 1, .error .batchServerTimeout)
    else ([], 1, .error (.httpOther status))
  | .invalidBody => ([], 1, .error .malformedResponse)
  | .otherFailure => ([], 1, .error .genericQueryError)

/-- Spec-side reading of claim C5 as written: the value of the first PRESENT
key among the priority keys, presence alone deciding. -/
def firstPresentValue (tags : List (String × String)) : Option String :=
  ["amenity", "shop", "tourism", "railway", "man_made", "power", "landuse",
    "healthcare"].findSome? (fun k => lookupTag tags k)

/-- What the priority chain actually computes: the first priority key present
with a non-empty (Python-truthy) value. -/
def firstTruthyValue (tags : List (String × String)) : Option String :=
  ["amenity", "shop", "tourism", "railway", "man_made", "power", "landuse",
    "healthcare"].findSome? (fun k =>
      match lookupTag tags k with
      | some v => if v = "" then none else some v
      | none => none)

/-- A concrete bounding box (rendered coordinates) used for witnesses. -/
def bbTest : BBox := ("44.0", "20.0", "45.0", "21.0")

/-- A node element tagged `amenity=school`. -/
def eSchool : Element :=
  { kind := some "node", latVal := some 1, lonVal := some 2, center := none,
    osmId := some 11, tags := some [("amenity", "school")] }

/-- A node element whose tags match no category table entry. -/
def eNoMatch : Element :=
  { kind := some "node", latVal := some 3, lonVal := some 4, center := none,
    osmId := some 12, tags := some [("name", "x")] }

/-- A `relation` element, which the parser must skip. -/
def eRelation : Element :=
  { kind := some "relation", latVal := none, lonVal := none, center := none,
    osmId := some 13, tags := some [("amenity", "school")] }

/-- A node element carrying an empty-string `amenity` value next to
`shop=supermarket`. -/
def eEmptyAmenity : Element :=
  { kind := some "node", latVal := some 1, lonVal := some 2, center := none,
    osmId := some 14, tags := some [("amenity", ""), ("shop", "supermarket")] }

/-- The feature `parse_features` builds from `eSchool`. -/
def fSchool : Feature :=
  { lat := 1, lon := 2, name := "Unnamed", type := "school", id := 11,
    tags := [("amenity", "school")] }

/-- A response containing the same school node twice. -/
def rDup : Response := ⟨some [eSchool, eSchool]⟩

/-- A response with one categorizable and one uncategorizable feature. -/
def rTwo : Response := ⟨some [eSchool, eNoMatch]⟩

/-- A response with the empty-`amenity` element only. -/
def rEmptyAmenity : Response := ⟨some [eEmptyAmenity]⟩

/-- Network stub: request timeout on attempts 0 and 1, success (with `rTwo`)
from attempt 2 on. -/
def envTimeoutTwice : String → Nat → AttemptOutcome :=
  fun _ i => if i < 2 then .timeoutFailure else .success rTwo

/-- Network stub: every attempt times out. -/
def envAllTimeout : String → Nat → AttemptOutcome :=
  fun _ _ => .timeoutFailure

/-- Network stub: every attempt is answered with HTTP 429. -/
def envAll429 : String → Nat → AttemptOutcome :=
  fun _ _ => .httpFailure 429

/-- Network stub for the batch path, one outcome per query. -/
def envBatch (o : AttemptOutcome) : String → AttemptOutcome := fun _ => o

-- ! Theorems begin here.

theorem pyOr_chain_eq_findSome (tags : List (String × String)) :
    ∀ (ks : List String) (d : String),
      ks.foldr (fun k acc => pyOr (lookupTag tags k) acc) d =
        (ks.findSome? (fun k =>
          match lookupTag tags k with
          | some v => if v = "" then none else some v
          | none => none)).getD d := by
  intro ks
  induction ks with
  | nil => intro d; rfl
  | cons k ks ih =>
    intro d
    rw [List.foldr_cons, List.findSome?_cons]
    cases h : lookupTag tags k with
    | none => simpa [pyOr] using ih d
    | some s =>
      by_cases hs : s = ""
      · simp only [hs, if_pos rfl]
        simpa [pyOr] using ih d
      · simp [pyOr, hs]

theorem poiTypeOf_eq_firstTruthy (tags : List (String × String)) :
    poiTypeOf tags = (firstTruthyValue tags).getD "unknown" := by
  have h := pyOr_chain_eq_findSome tags
    ["amenity", "shop", "tourism", "railway", "man_made", "power", "landuse",
      "healthcare"] "unknown"
  simpa only [List.foldr_cons, List.foldr_nil, poiTypeOf, firstTruthyValue]
    using h

theorem parseElement_type (e : Element) (f : Feature)
    (h : parseElement e = some f) : f.type = poiTypeOf (e.tags.getD []) := by
  unfold parseElement at h
  cases hc : elementCoords e with
  | none => rw [hc] at h; simp at h
  | some p =>
    obtain ⟨latOpt, lonOpt⟩ := p
    rw [hc] at h
    cases latOpt with
    | none => simp at h
    | some lat =>
      cases lonOpt with
      | none => simp at h
      | some lon =>
        simp only [Option.some.injEq] at h
        rw [← h]

theorem lookupBucket_add_same (d : List (String × List Feature)) (c : String)
    (f : Feature) : lookupBucket (addToBucket d c f) c = lookupBucket d c ++ [f] := by
  induction d with
  | nil => simp [addToBucket, lookupBucket]
  | cons p rest ih =>
    obtain ⟨k, fs⟩ := p
    by_cases hk : k = c
    · subst hk; simp [addToBucket, lookupBucket]
    · simp [addToBucket, lookupBucket, hk, ih]

theorem lookupBucket_add_other (d : List (String × List Feature)) (c c2 : String)
    (f : Feature) (h : c2 ≠ c) :
    lookupBucket (addToBucket d c f) c2 = lookupBucket d c2 := by
  have hcc : ¬ c = c2 := fun hc => h hc.symm
  induction d with
  | nil => simp [addToBucket, lookupBucket, hcc]
  | cons p rest ih =>
    obtain ⟨k, fs⟩ := p
    by_cases hk : k = c
    · subst hk
      simp [addToBucket, lookupBucket, hcc]
    · by_cases hk2 : k = c2 <;>
        simp [addToBucket, lookupBucket, hk, hk2, h, hcc, ih]

theorem lookupBucket_foldl (c : String) :
    ∀ (fs : List Feature) (d : List (String × List Feature)),
      lookupBucket (fs.foldl batchStep d) c =
        lookupBucket d c ++ fs.filter (fun f => matchCategory f.tags == some c) := by
  intro fs
  induction fs with
  | nil => intro d; simp
  | cons f fs ih =>
    intro d
    rw [List.foldl_cons, ih (batchStep d f)]
    cases hm : matchCategory f.tags with
    | none =>
      have hb : batchStep d f = d := by simp [batchStep, hm]
      rw [hb, List.filter_cons]
      simp [hm]
    | some cat =>
      have hb : batchStep d f = addToBucket d cat f := by simp [batchStep, hm]
      by_cases hc : cat = c
      · subst hc
        rw [hb, lookupBucket_add_same, List.filter_cons]
        simp [hm]
      · rw [hb, lookupBucket_add_other d cat c f (fun hcc => hc hcc.symm),
          List.filter_cons]
        simp [hm, hc]

theorem batch_bucket_eq_filter (resp : Response) (c : String) :
    lookupBucket (parse_batch_features resp) c =
      (parse_features resp).filter (fun f => matchCategory f.tags == some c) := by
  have h := lookupBucket_foldl c (parse_features resp) []
  simpa [parse_batch_features, lookupBucket] using h

/-- Claim C5 counterexample: the source derives `type` with Python `or`, which
treats an empty-string tag value as absent. On a node tagged
`amenity=""` and `shop=supermarket`, the first PRESENT priority key is
`amenity` with value `""`, yet the parsed feature's type is `"supermarket"`,
so the claim as stated (type = value of first present key) is false. -/
theorem claim5_counterexample :
    firstPresentValue [("amenity", ""), ("shop", "supermarket")] = some "" ∧
    (parse_features rEmptyAmenity).map Feature.type = ["supermarket"] ∧
    ("supermarket" : String) ≠ "" := by
  refine ⟨rfl, rfl, by decide⟩

/-- Claim C5 (amended): the parsed feature's type equals the value of the
first priority key (`amenity`, `shop`, `tourism`, `railway`, `man_made`,
`power`, `landuse`, `healthcare`) that is present with a NON-EMPTY value;
if no priority key has a non-empty value, the type is "unknown". In
particular an element tagged both `amenity=school` and `shop=supermarket`
gets type "school". -/
theorem claim5_amended_truthy_priority :
    (∀ tags, poiTypeOf tags = (firstTruthyValue tags).getD "unknown") ∧
    (∀ (e : Element) (f : Feature), parseElement e = some f →
      f.type = (firstTruthyValue (e.tags.getD [])).getD "unknown") ∧
    poiTypeOf [("amenity", "school"), ("shop", "supermarket")] = "school" := by
  refine ⟨poiTypeOf_eq_firstTruthy, ?_, rfl⟩
  intro e f h
  rw [parseElement_type e f h, poiTypeOf_eq_firstTruthy]

/-- Witness for claim C5: the school node parses to a feature whose type is
given by the first-truthy-value rule. -/
theorem claim5_witness :
    fSchool.type = (firstTruthyValue (eSchool.tags.getD [])).getD "unknown" :=
  claim5_amended_truthy_priority.2.1 eSchool fSchool rfl

/-- Claim C2 counterexample: nothing in the pipeline de-duplicates. A response
carrying the same school node twice parses to the same record twice, both in
the flat list and in the "school" bucket of the batch parse. -/
theorem claim2_counterexample :
    parse_features rDup = [fSchool, fSchool] ∧
    ¬ (parse_features rDup).Nodup ∧
    lookupBucket (parse_batch_features rDup) "school" = [fSchool, fSchool] ∧
    ¬ (lookupBucket (parse_batch_features rDup) "school").Nodup := by
  have h1 : parse_features rDup = [fSchool, fSchool] := rfl
  have h2 : lookupBucket (parse_batch_features rDup) "school" = [fSchool, fSchool] := rfl
  refine ⟨h1, ?_, h2, ?_⟩ <;> simp [h1, h2]

/-- Claim C2 (amended): the parsed output is NOT de-duplicated — the flat list
holds exactly one record per accepted element, in order, so each record occurs
exactly as many times as elements of the response parse to it. -/
theorem claim2_amended_no_dedup :
    (∀ es : List Element, parse_features ⟨some es⟩ = es.filterMap parseElement) ∧
    (∀ (es : List Element) (f : Feature),
      (parse_features ⟨some es⟩).count f =
        es.countP (fun e => parseElement e == some f)) := by
  refine ⟨fun es => rfl, fun es f => ?_⟩
  rw [show parse_features ⟨some es⟩ = es.filterMap parseElement from rfl]
  exact List.count_filterMap f parseElement es

/-- Claim C6: a feature lands in the bucket of the first category (in
`CATEGORY_MAPPING` iteration order) whose tag pair its tags carry, hence in at
most one bucket; a feature matching no category is in no bucket; and the
two-feature instance (one `amenity=school` node, one unmatched node) yields
exactly the one key "school" with exactly the one feature. -/
theorem claim6_first_match_bucketing :
    (∀ (resp : Response) (c : String) (f : Feature),
      f ∈ lookupBucket (parse_batch_features resp) c →
      matchCategory f.tags = some c) ∧
    (∀ (resp : Response) (c c2 : String) (f : Feature),
      f ∈ lookupBucket (parse_batch_features resp) c →
      f ∈ lookupBucket (parse_batch_features resp) c2 → c = c2) ∧
    (∀ (resp : Response) (f : Feature) (c : String),
      matchCategory f.tags = none →
      f ∉ lookupBucket (parse_batch_features resp) c) ∧
    parse_batch_features rTwo = [("school", [fSchool])] := by
  have hmem : ∀ (resp : Response) (c : String) (f : Feature),
      f ∈ lookupBucket (parse_batch_features resp) c →
      matchCategory f.tags = some c := by
    intro resp c f hf
    rw [batch_bucket_eq_filter, List.mem_filter] at hf
    simpa using hf.2
  refine ⟨hmem, ?_, ?_, rfl⟩
  · intro resp c c2 f h1 h2
    exact Option.some.inj ((hmem resp c f h1).symm.trans (hmem resp c2 f h2))
  · intro resp f c hnone hf
    have hsome := hmem resp c f hf
    rw [hnone] at hsome
    exact Option.noConfusion hsome

/-- Witness for claim C6: the school feature sits in the "school" bucket of
the two-feature response, so its tags match the "school" category entry. -/
theorem claim6_witness : matchCategory fSchool.tags = some "school" :=
  claim6_first_match_bucketing.1 rTwo "school" fSchool (by decide)

/-- Claim C10: the flat parse keeps the element order (it is the in-order
`filterMap` of the elements list), and every bucket of the batch parse is the
in-order filter — hence an order-preserving sub-sequence — of the flat
parse. -/
theorem claim10_order_preservation :
    (∀ es : List Element, parse_features ⟨some es⟩ = es.filterMap parseElement) ∧
    (∀ (resp : Response) (c : String),
      lookupBucket (parse_batch_features resp) c =
        (parse_features resp).filter (fun f => matchCategory f.tags == some c)) ∧
    (∀ (resp : Response) (c : String),
      (lookupBucket (parse_batch_features resp) c).Sublist (parse_features resp)) := by
  refine ⟨fun es => rfl, batch_bucket_eq_filter, fun resp c => ?_⟩
  rw [batch_bucket_eq_filter]
  exact List.filter_sublist _

/-- Claim C8: parsing never fails — a response without an `elements` key
parses to the empty list; an element of a kind other than node/way, a node
without `lat`/`lon`, or a way without center coordinates is silently dropped,
leaving the rest of the parse unchanged. -/
theorem claim8_parse_robustness :
    (∀ resp : Response, resp.elements = none → parse_features resp = []) ∧
    (∀ e : Element, e.kind ≠ some "node" → e.kind ≠ some "way" →
      parseElement e = none) ∧
    (∀ e : Element, e.kind = some "node" →
      e.latVal = none ∨ e.lonVal = none → parseElement e = none) ∧
    (∀ e : Element, e.kind = some "way" →
      (e.center.getD ⟨none, none⟩).latVal = none ∨
        (e.center.getD ⟨none, none⟩).lonVal = none →
      parseElement e = none) ∧
    (∀ (xs ys : List Element) (e : Element), parseElement e = none →
      parse_features ⟨some (xs ++ e :: ys)⟩ = parse_features ⟨some (xs ++ ys)⟩) := by
  refine ⟨?_, ?_, ?_, ?_, ?_⟩
  · intro resp h
    simp [parse_features, h]
  · intro e h1 h2
    simp [parseElement, elementCoords, h1, h2]
  · intro e hk h
    rcases h with h | h <;> simp [parseElement, elementCoords, hk, h]
  · intro e hk h
    have hnode : e.kind ≠ some "node" := by rw [hk]; decide
    rcases h with h | h <;> simp [parseElement, elementCoords, hk, hnode, h]
  · intro xs ys e h
    simp [parse_features, List.filterMap_append, List.filterMap_cons, h]

/-- Witness for claim C8: the relation element is skipped. -/
theorem claim8_witness : parseElement eRelation = none :=
  claim8_parse_robustness.2.1 eRelation (by decide) (by decide)

/-- Claim C7: both builders look the category up case-insensitively in
`CATEGORY_MAPPING`; a category not in the table resolves to the fallback pair
`("amenity", lowercase(category))`, a category in the table (under any letter
case) resolves to its mapped pair. -/
theorem claim7_category_resolution (bbox : BBox) (cat : String) :
    (lookupCategory (pyLower cat) = none →
      build_query bbox cat = singleQueryText bbox "amenity" (pyLower cat) ∧
      build_batch_query bbox [cat] =
        batchQueryText (batchPairLines bbox "amenity" (pyLower cat))) ∧
    (∀ k v : String, lookupCategory (pyLower cat) = some (k, v) →
      build_query bbox cat = singleQueryText bbox k v ∧
      build_batch_query bbox [cat] = batchQueryText (batchPairLines bbox k v)) := by
  constructor
  · intro h
    constructor
    · simp [build_query, resolveTag, h]
    · simp [build_batch_query, resolveTag, h]
  · intro k v h
    constructor
    · simp [build_query, resolveTag, h]
    · simp [build_batch_query, resolveTag, h]

/-- Witness for claim C7: "Gas Station" resolves (case-insensitively) to the
mapped pair `("amenity", "fuel")`; the unmapped "cafe" falls back to
`("amenity", "cafe")`. -/
theorem claim7_witness :
    build_query bbTest "Gas Station" = singleQueryText bbTest "amenity" "fuel" ∧
    build_query bbTest "cafe" = singleQueryText bbTest "amenity" "cafe" := by
  constructor
  · exact ((claim7_category_resolution bbTest "Gas Station").2 "amenity" "fuel"
      (by decide)).1
  · exact (((claim7_category_resolution bbTest "cafe").1 (by decide)).1).trans
      (by rw [show pyLower "cafe" = "cafe" from rfl])

/-- Claim C1: with `retry_count = 3`, a request timeout on attempts 1 and 2
followed by a success on attempt 3 returns the parsed response after sleeping
2s then 4s (three HTTP attempts in total); if attempt 3 also times out, the
call raises the timeout error instead, after the same two sleeps. -/
theorem queryGo_success_step (env : String → Nat → AttemptOutcome) (q : String)
    (rc : Int) (fuel attempt : Nat) (d : Response)
    (h : env q attempt = .success d) :
    queryGo env q rc (fuel + 1) attempt = ([], 1, .ok (some d)) := by
  simp only [queryGo]
  rw [h]

theorem queryGo_timeout_step (env : String → Nat → AttemptOutcome) (q : String)
    (rc : Int) (fuel attempt : Nat) (h : env q attempt = .timeoutFailure) :
    queryGo env q rc (fuel + 1) attempt =
      if (attempt : Int) < rc - 1 then
        ((attempt + 1) * 2 :: (queryGo env q rc fuel (attempt + 1)).1,
          (queryGo env q rc fuel (attempt + 1)).2.1 + 1,
          (queryGo env q rc fuel (attempt + 1)).2.2)
      else ([], 1, .error .timeoutExhausted) := by
  simp only [queryGo]
  rw [h]

theorem queryGo_429_step (env : String → Nat → AttemptOutcome) (q : String)
    (rc : Int) (fuel attempt : Nat) (h : env q attempt = .httpFailure 429) :
    queryGo env q rc (fuel + 1) attempt =
      if (attempt : Int) < rc - 1 then
        ((attempt + 1) * 5 :: (queryGo env q rc fuel (attempt + 1)).1,
          (queryGo env q rc fuel (attempt + 1)).2.1 + 1,
          (queryGo env q rc fuel (attempt + 1)).2.2)
      else ([], 1, .error .rateLimited) := by
  simp only [queryGo]
  rw [h]
  norm_num

theorem claim1_retry_timeout_schedule (env : String → Nat → AttemptOutcome)
    (bbox : BBox) (cat : String) (d : Response) :
    (env (build_query bbox cat) 0 = .timeoutFailure →
      env (build_query bbox cat) 1 = .timeoutFailure →
      env (build_query bbox cat) 2 = .success d →
      query_overpass env bbox cat 3 = ([2, 4], 3, .ok (some d))) ∧
    ((∀ i, i < 3 → env (build_query bbox cat) i = .timeoutFailure) →
      query_overpass env bbox cat 3 = ([2, 4], 3, .error .timeoutExhausted)) := by
  constructor
  · intro h0 h1 h2
    unfold query_overpass
    rw [show (3 : Int).toNat = ((0 + 1) + 1) + 1 from rfl,
      queryGo_timeout_step env (build_query bbox cat) 3 ((0 + 1) + 1) 0 h0,
      if_pos (by norm_num),
      queryGo_timeout_step env (build_query bbox cat) 3 (0 + 1) 1 h1,
      if_pos (by norm_num),
      queryGo_success_step env (build_query bbox cat) 3 0 2 d h2]
  · intro h
    unfold query_overpass
    rw [show (3 : Int).toNat = ((0 + 1) + 1) + 1 from rfl,
      queryGo_timeout_step env (build_query bbox cat) 3 ((0 + 1) + 1) 0
        (h 0 (by norm_num)),
      if_pos (by norm_num),
      queryGo_timeout_step env (build_query bbox cat) 3 (0 + 1) 1
        (h 1 (by norm_num)),
      if_pos (by norm_num),
      queryGo_timeout_step env (build_query bbox cat) 3 0 2 (h 2 (by norm_num)),
      if_neg (by norm_num)]

/-- Witness for claim C1: both schedules at a concrete bbox, category and
network stub. -/
theorem claim1_witness :
    query_overpass envTimeoutTwice bbTest "school" 3 = ([2, 4], 3, .ok (some rTwo)) ∧
    query_overpass envAllTimeout bbTest "school" 3 =
      ([2, 4], 3, .error .timeoutExhausted) := by
  constructor
  · exact (claim1_retry_timeout_schedule envTimeoutTwice bbTest "school" rTwo).1
      rfl rfl rfl
  · exact (claim1_retry_timeout_schedule envAllTimeout bbTest "school" rTwo).2
      (fun i _ => rfl)

/-- Claim C9: `range(retry_count)` is empty for `retry_count <= 0`, so the
loop body never runs: no HTTP attempt, no sleep, and the function returns
Python's implicit `None` rather than a response or an error. -/
theorem claim9_nonpositive_retry_returns_none
    (env : String → Nat → AttemptOutcome) (bbox : BBox) (cat : String)
    (rc : Int) (h : rc ≤ 0) :
    query_overpass env bbox cat rc = ([], 0, .ok none) := by
  unfold query_overpass
  rw [Int.toNat_of_nonpos h]
  rfl

/-- Witness for claim C9 at `retry_count = -1`. -/
theorem claim9_witness :
    query_overpass envAll429 bbTest "school" (-1) = ([], 0, .ok none) :=
  claim9_nonpositive_retry_returns_none envAll429 bbTest "school" (-1) (by decide)

theorem queryGo_all429 (env : String → Nat → AttemptOutcome) (q : String)
    (n : Int) (h : ∀ i, env q i = .httpFailure 429) :
    ∀ (fuel attempt : Nat), 1 ≤ fuel → (attempt : Int) + fuel = n →
      queryGo env q n fuel attempt =
        ((List.range' (attempt + 1) (fuel - 1)).map (fun i => i * 5), fuel,
          .error .rateLimited) := by
  intro fuel
  induction fuel with
  | zero => intro attempt h1 _; exact absurd h1 (by norm_num)
  | succ f ih =>
    intro attempt _ hsum
    rw [queryGo_429_step env q n f attempt (h attempt)]
    by_cases hf : f = 0
    · subst hf
      rw [if_neg (by push_cast at hsum ⊢; omega)]
      simp
    · have hfpos : 1 ≤ f := Nat.one_le_iff_ne_zero.mpr hf
      rw [if_pos (by push_cast at hsum ⊢; omega),
        ih (attempt + 1) hfpos (by push_cast at hsum ⊢; omega)]
      obtain ⟨g, rfl⟩ : ∃ g, f = g + 1 := ⟨f - 1, by omega⟩
      simp [List.range'_succ]

/-- Claim C4: when every attempt is answered with HTTP 429 the single-category
fetch retries with 5, 10, ..., 5 * (retry_count - 1) seconds of backoff between
attempts, issues exactly retry_count HTTP attempts, and fails with the
dedicated rate-limited error, not the generic one. -/
theorem claim4_rate_limited (env : String → Nat → AttemptOutcome) (bbox : BBox)
    (cat : String) (n : Nat) (hn : 1 ≤ n)
    (h : ∀ i, env (build_query bbox cat) i = .httpFailure 429) :
    query_overpass env bbox cat (n : Int) =
      ((List.range' 1 (n - 1)).map (fun i => i * 5), n, .error .rateLimited) := by
  unfold query_overpass
  rw [Int.toNat_ofNat]
  have hres := queryGo_all429 env (build_query bbox cat) (n : Int) h n 0 hn
    (by simp)
  simpa using hres

/-- Witness for claim C4 at `retry_count = 3`: sleeps 5s then 10s, three
attempts, rate-limited error. -/
theorem claim4_witness :
    query_overpass envAll429 bbTest "school" ((3 : Nat) : Int) =
      ([5, 10], 3, .error .rateLimited) :=
  (claim4_rate_limited envAll429 bbTest "school" 3 (by norm_num)
    (fun i => rfl)).trans (by rfl)

/-- Claim C3: the batch fetch performs exactly one HTTP attempt and never
sleeps, whatever the outcome; each failure outcome maps directly to its own
error (timeout, connection, HTTP 504, other HTTP status, malformed body,
catch-all), and a success returns the parsed body. -/
theorem claim3_batch_single_attempt (env : String → AttemptOutcome)
    (bbox : BBox) (cats : List String) :
    (query_overpass_batch env bbox cats).1 = [] ∧
    (query_overpass_batch env bbox cats).2.1 = 1 ∧
    (∀ d, env (build_batch_query bbox cats) = .success d →
      query_overpass_batch env bbox cats = ([], 1, .ok d)) ∧
    (env (build_batch_query bbox cats) = .timeoutFailure →
      query_overpass_batch env bbox cats = ([], 1, .error .batchTimeout)) ∧
    (env (build_batch_query bbox cats) = .connectionFailure →
      query_overpass_batch env bbox cats =
        ([], 1, .error .connectionUnavailable)) ∧
    (env (build_batch_query bbox cats) = .httpFailure 504 →
      query_overpass_batch env bbox cats = ([], 1, .error .batchServerTimeout)) ∧
    (∀ s, s ≠ 504 → env (build_batch_query bbox cats) = .httpFailure s →
      query_overpass_batch env bbox cats = ([], 1, .error (.httpOther s))) ∧
    (env (build_batch_query bbox cats) = .invalidBody →
      query_overpass_batch env bbox cats = ([], 1, .error .malformedResponse)) ∧
    (env (build_batch_query bbox cats) = .otherFailure →
      query_overpass_batch env bbox cats = ([], 1, .error .genericQueryError)) := by
  have key : ∃ r, query_overpass_batch env bbox cats = ([], 1, r) := by
    cases h : env (build_batch_query bbox cats) with
    | success d => exact ⟨.ok d, by simp [query_overpass_batch, h]⟩
    | timeoutFailure =>
      exact ⟨.error .batchTimeout, by simp [query_overpass_batch, h]⟩
    | httpFailure s =>
      by_cases hs : s = 504
      · exact ⟨.error .batchServerTimeout, by simp [query_overpass_batch, h, hs]⟩
      · exact ⟨.error (.httpOther s), by simp [query_overpass_batch, h, hs]⟩
    | connectionFailure =>
      exact ⟨.error .connectionUnavailable, by simp [query_overpass_batch, h]⟩
    | invalidBody =>
      exact ⟨.error .malformedResponse, by simp [query_overpass_batch, h]⟩
    | otherFailure =>
      exact ⟨.error .genericQueryError, by simp [query_overpass_batch, h]⟩
  obtain ⟨r, hr⟩ := key
  refine ⟨by rw [hr], by rw [hr], ?_, ?_, ?_, ?_, ?_, ?_, ?_⟩
  · intro d h; simp [query_overpass_batch, h]
  · intro h; simp [query_overpass_batch, h]
  · intro h; simp [query_overpass_batch, h]
  · intro h; simp [query_overpass_batch, h]
  · intro s hs h; simp [query_overpass_batch, h, hs]
  · intro h; simp [query_overpass_batch, h]
  · intro h; simp [query_overpass_batch, h]

/-- Witness for claim C3: a timed-out batch request fails at once with the
batch-timeout error. -/
theorem claim3_witness :
    query_overpass_batch (envBatch .timeoutFailure) bbTest ["school"] =
      ([], 1, .error .batchTimeout) :=
  (claim3_batch_single_attempt (envBatch .timeoutFailure) bbTest
    ["school"]).2.2.2.1 rfl
